import Mathlib

/-!
Shallow embedding of the GCP-Pulumi VPC program
(src/index.ts and src/modules/vpc.ts).

Pulumi resource declarations are modelled as pure record values; a run of
the program is the ordered list of resources it declares.  Pulumi output
properties (`id`, `name`) are modelled as deterministic functions of the
declared resource, since within one deployment they are uniquely determined
by it.  JavaScript `undefined` in an optional argument or property is
modelled with `Option`.
-/

/-- A subnet configuration entry `{ cidrRange, name }` (vpc.ts, constructor
parameter `subnetsConfig`). -/
structure SubnetConfig where
  cidrRange : String
  name : String
deriving Repr, DecidableEq

/-- `gcp.compute.Network` as declared in vpc.ts: the Pulumi resource name and
the single argument `autoCreateSubnetworks`. -/
structure Network where
  resourceName : String
  autoCreateSubnetworks : Bool
deriving Repr, DecidableEq

/-- The Pulumi output `network.id`, modelled as a deterministic function of
the declared resource. -/
def Network.id (n : Network) : String :=
  "networks/" ++ n.resourceName

/-- The Pulumi output `network.name`, modelled as the declared resource name. -/
def Network.outName (n : Network) : String :=
  n.resourceName

/-- `gcp.compute.Subnetwork` as declared in vpc.ts with the arguments the
program sets: `ipCidrRange`, `region`, `network`, `privateIpGoogleAccess`. -/
structure Subnetwork where
  resourceName : String
  ipCidrRange : String
  region : String
  network : String
  privateIpGoogleAccess : Bool
deriving Repr, DecidableEq

/-- The Pulumi output `subnet.id`, modelled as a deterministic function of
the declared resource. -/
def Subnetwork.id (s : Subnetwork) : String :=
  "subnetworks/" ++ s.resourceName

/-- The Pulumi output `subnet.name`, modelled as the declared resource name. -/
def Subnetwork.outName (s : Subnetwork) : String :=
  s.resourceName

/-- One entry of a firewall `allows` list: `{ protocol, ports? }`.  The
`icmp` entry in vpc.ts omits `ports`, hence the `Option`. -/
structure FirewallAllow where
  protocol : String
  ports : Option (List String)
deriving Repr, DecidableEq

/-- The firewall `logConfig` argument `{ metadata }`. -/
structure LogConfig where
  metadata : String
deriving Repr, DecidableEq

/-- `gcp.compute.Firewall` as declared in vpc.ts with the arguments the
program sets.  `sourceRanges` and `targetTags` are `Option` because the
`allow-ssh` declaration omits `targetTags`, and a JavaScript `undefined`
argument makes `sourceRanges` undefined. -/
structure Firewall where
  resourceName : String
  network : String
  allows : List FirewallAllow
  sourceRanges : Option (List String)
  targetTags : Option (List String)
  direction : String
  logConfig : LogConfig
deriving Repr, DecidableEq

/-- A resource declared by the program: the program only ever declares
networks, subnetworks and firewalls. -/
inductive Resource where
  | network : Network → Resource
  | subnetwork : Subnetwork → Resource
  | firewall : Firewall → Resource
deriving Repr, DecidableEq

/-- The Pulumi resource name of a declared resource. -/
def Resource.resourceName : Resource → String
  | .network n => n.resourceName
  | .subnetwork s => s.resourceName
  | .firewall f => f.resourceName

/-- Network tags applied to a declared resource.  None of the resource kinds
this program declares (Network, Subnetwork, Firewall) carries applied
instance tags in its arguments; a firewall's `targetTags` is a match
criterion, not a tag applied to the firewall. -/
def Resource.appliedTags : Resource → List String
  | .network _ => []
  | .subnetwork _ => []
  | .firewall _ => []

/-- The first declaration of `VPC.createFirewallRules` (vpc.ts lines 64-78):
the `allow-internal` firewall. -/
def allowInternalRule (vpcId : String) (sourceRanges : List String) : Firewall :=
  { resourceName := "allow-internal"
    network := vpcId
    allows := [ ⟨"tcp", some ["0-65535"]⟩,
                ⟨"udp", some ["0-65535"]⟩,
                ⟨"icmp", none⟩ ]
    sourceRanges := some sourceRanges
    targetTags := some ["internal"]
    direction := "INGRESS"
    logConfig := ⟨"INCLUDE_ALL_METADATA"⟩ }

/-- The second declaration of `VPC.createFirewallRules` (vpc.ts lines 80-89):
the `allow-ssh` firewall.  Its `sourceRanges` is exactly the
`sshSourceRanges` parameter (which a 4-argument call leaves undefined). -/
def allowSshRule (vpcId : String) (sshSourceRanges : Option (List String)) : Firewall :=
  { resourceName := "allow-ssh"
    network := vpcId
    allows := [ ⟨"tcp", some ["22"]⟩ ]
    sourceRanges := sshSourceRanges
    targetTags := none
    direction := "INGRESS"
    logConfig := ⟨"INCLUDE_ALL_METADATA"⟩ }

/-- `VPC.createFirewallRules` (vpc.ts lines 60-92): declares exactly the two
firewalls `allow-internal` and `allow-ssh`, in this order, on the network
with id `vpcId`. -/
def createFirewallRules (vpcId : String) (sourceRanges : List String)
    (sshSourceRanges : Option (List String)) : List Firewall :=
  [allowInternalRule vpcId sourceRanges, allowSshRule vpcId sshSourceRanges]

/-- The fields of the `VPC` class instance after construction. -/
structure VPC where
  vpc : Network
  subnets : List Subnetwork
deriving Repr, DecidableEq

/-- The `VPC` constructor (vpc.ts lines 26-52): declares the network, one
subnetwork per `subnetsConfig` entry, then the two firewall rules.  Returns
the class instance together with the ordered list of declared resources.
`sshSourceRanges` is `Option` because the call in index.ts omits the fifth
argument, making the parameter `undefined` (`none`). -/
def VPC.make (name : String) (region : String)
    (subnetsConfig : List SubnetConfig) (sourceRanges : List String)
    (sshSourceRanges : Option (List String)) : VPC × List Resource :=
  let network : Network := { resourceName := name, autoCreateSubnetworks := false }
  let subnets : List Subnetwork := subnetsConfig.map (fun sc =>
    { resourceName := sc.name
      ipCidrRange := sc.cidrRange
      region := region
      network := network.id
      privateIpGoogleAccess := true })
  let firewalls := createFirewallRules network.id sourceRanges sshSourceRanges
  (⟨network, subnets⟩,
    Resource.network network ::
      (subnets.map Resource.subnetwork ++ firewalls.map Resource.firewall))

/-- One `{ subnetName, subnetId }` entry of the `getVPCDetails` result. -/
structure SubnetDetail where
  subnetName : String
  subnetId : String
deriving Repr, DecidableEq

/-- The record returned by `VPC.getVPCDetails`. -/
structure VPCDetails where
  vpcName : String
  vpcId : String
  subnets : List SubnetDetail
deriving Repr, DecidableEq

/-- `VPC.getVPCDetails` (vpc.ts lines 99-110): a pure read of the stored
resource handles; declares no resources. -/
def VPC.getVPCDetails (v : VPC) : VPCDetails :=
  { vpcName := v.vpc.outName
    vpcId := v.vpc.id
    subnets := v.subnets.map (fun s => ⟨s.outName, s.id⟩) }

/-- The process environment as index.ts reads it: the four variables it
consumes, each either unset (`none`) or set to a string. -/
structure Env where
  VPC_CIDR_RANGE_1 : Option String
  VPC_CIDR_RANGE_2 : Option String
  VPC_SOURCE_RANGE : Option String
  GCP_REGION : Option String
deriving Repr, DecidableEq

/-- JavaScript `x || d` on `process.env` values: the default applies when the
variable is unset or set to the empty string (the empty string is falsy). -/
def jsOr (x : Option String) (d : String) : String :=
  match x with
  | none => d
  | some s => if s = "" then d else s

/-- `subnetsConfigIndiaVPC` (index.ts lines 5-8). -/
def subnetsConfigIndiaVPC (env : Env) : List SubnetConfig :=
  [ ⟨jsOr env.VPC_CIDR_RANGE_1 "10.0.0.0/16", "vpc-subnet-1"⟩,
    ⟨jsOr env.VPC_CIDR_RANGE_2 "10.1.0.0/16", "vpc-subnet-2"⟩ ]

/-- `sourceRangesIndiaVPC` (index.ts line 11). -/
def sourceRangesIndiaVPC (env : Env) : List String :=
  [jsOr env.VPC_SOURCE_RANGE "10.0.0.0/8"]

/-- `indiaVPC` (index.ts line 14): the constructor call passes only four
positional arguments, so the fifth parameter `sshSourceRanges` is
`undefined`, modelled as `none`. -/
def indiaVPC (env : Env) : VPC × List Resource :=
  VPC.make "india-vpc" (jsOr env.GCP_REGION "us-central1")
    (subnetsConfigIndiaVPC env) (sourceRangesIndiaVPC env) none

/-- `indiaVpcDetails` (index.ts line 17). -/
def indiaVpcDetails (env : Env) : VPCDetails :=
  (indiaVPC env).1.getVPCDetails

/-- The value of a decimal digit character, `none` on a non-digit. -/
def digitVal? (c : Char) : Option Nat :=
  if c.isDigit then some (c.toNat - 48) else none

/-- Accumulating decimal parse of a character list; `none` on a non-digit. -/
def parseNatAux : List Char → Nat → Option Nat
  | [], acc => some acc
  | c :: cs, acc =>
    match digitVal? c with
    | some d => parseNatAux cs (acc * 10 + d)
    | none => none

/-- Decimal parse of a non-empty character list. -/
def parseNatChars : List Char → Option Nat
  | [] => none
  | cs => parseNatAux cs 0

/-- Split a character list into the dash-separated groups. -/
def splitOnDash (cs : List Char) : List (List Char) :=
  match cs with
  | [] => [[]]
  | c :: rest =>
    let r := splitOnDash rest
    if c = '-' then [] :: r
    else
      match r with
      | [] => [[c]]
      | g :: gs => (c :: g) :: gs

/-- GCP semantics of a single port specification string in an `allows`
entry: either a single port `"22"` or a range `"0-65535"`. -/
def parsePortSpec (s : String) : Option (Nat × Nat) :=
  match (splitOnDash s.toList).map parseNatChars with
  | [some n] => some (n, n)
  | [some m, some n] => some (m, n)
  | _ => none

/-- Whether one `allows` entry permits protocol `proto` on port `p` under GCP
firewall semantics: the protocol must match, and an omitted `ports` list
means all ports. -/
def FirewallAllow.covers (a : FirewallAllow) (proto : String) (p : Nat) : Bool :=
  a.protocol == proto &&
    match a.ports with
    | none => true
    | some l => l.any (fun s =>
        match parsePortSpec s with
        | some (lo, hi) => decide (lo ≤ p) && decide (p ≤ hi)
        | none => false)

/-- Whether a firewall permits protocol `proto` on port `p`: some entry of
its `allows` list covers it. -/
def Firewall.covers (f : Firewall) (proto : String) (p : Nat) : Bool :=
  f.allows.any (fun a => a.covers proto p)

/-- The networks among a list of declared resources. -/
def networksOf (rs : List Resource) : List Network :=
  rs.filterMap (fun r => match r with | .network n => some n | _ => none)

/-- The subnetworks among a list of declared resources. -/
def subnetworksOf (rs : List Resource) : List Subnetwork :=
  rs.filterMap (fun r => match r with | .subnetwork s => some s | _ => none)

/-- The firewalls among a list of declared resources. -/
def firewallsOf (rs : List Resource) : List Firewall :=
  rs.filterMap (fun r => match r with | .firewall f => some f | _ => none)

/-- The firewall named `allow-internal` among a list of declared resources,
when there is one. -/
def allowInternalOf (rs : List Resource) : Option Firewall :=
  (firewallsOf rs).find? (fun f => f.resourceName == "allow-internal")

/-- The firewall named `allow-ssh` among a list of declared resources, when
there is one. -/
def allowSshOf (rs : List Resource) : Option Firewall :=
  (firewallsOf rs).find? (fun f => f.resourceName == "allow-ssh")

/-! Helper lemmas: the classified projections of the resource list. -/

theorem networksOf_cons_network (n : Network) (rs : List Resource) :
    networksOf (Resource.network n :: rs) = n :: networksOf rs := by
  simp [networksOf, List.filterMap_cons]

theorem networksOf_append (xs ys : List Resource) :
    networksOf (xs ++ ys) = networksOf xs ++ networksOf ys := by
  simp [networksOf, List.filterMap_append]

theorem subnetworksOf_append (xs ys : List Resource) :
    subnetworksOf (xs ++ ys) = subnetworksOf xs ++ subnetworksOf ys := by
  simp [subnetworksOf, List.filterMap_append]

theorem firewallsOf_append (xs ys : List Resource) :
    firewallsOf (xs ++ ys) = firewallsOf xs ++ firewallsOf ys := by
  simp [firewallsOf, List.filterMap_append]

theorem networksOf_map_subnetwork {α : Type} (f : α → Subnetwork) (l : List α) :
    networksOf (l.map fun x => Resource.subnetwork (f x)) = [] := by
  induction l with
  | nil => rfl
  | cons s t ih => simp [networksOf, List.filterMap_cons] at ih ⊢

theorem subnetworksOf_map_subnetwork {α : Type} (f : α → Subnetwork) (l : List α) :
    subnetworksOf (l.map fun x => Resource.subnetwork (f x)) = l.map f := by
  induction l with
  | nil => rfl
  | cons s t ih => simp only [List.map_cons, subnetworksOf, List.filterMap_cons] at ih ⊢; rw [ih]

theorem firewallsOf_map_subnetwork {α : Type} (f : α → Subnetwork) (l : List α) :
    firewallsOf (l.map fun x => Resource.subnetwork (f x)) = [] := by
  induction l with
  | nil => rfl
  | cons s t ih => simp [firewallsOf, List.filterMap_cons] at ih ⊢

theorem subnetworksOf_cons_network (n : Network) (rs : List Resource) :
    subnetworksOf (Resource.network n :: rs) = subnetworksOf rs := by
  simp [subnetworksOf, List.filterMap_cons]

theorem firewallsOf_cons_network (n : Network) (rs : List Resource) :
    firewallsOf (Resource.network n :: rs) = firewallsOf rs := by
  simp [firewallsOf, List.filterMap_cons]

/-- Characterisation of the constructor's declared-resource list. -/
theorem make_snd (name region : String) (cfg : List SubnetConfig)
    (src : List String) (ssh : Option (List String)) :
    (VPC.make name region cfg src ssh).2 =
      Resource.network ⟨name, false⟩ ::
        ((cfg.map fun sc =>
            Resource.subnetwork ⟨sc.name, sc.cidrRange, region,
              Network.id ⟨name, false⟩, true⟩) ++
          [Resource.firewall (allowInternalRule (Network.id ⟨name, false⟩) src),
           Resource.firewall (allowSshRule (Network.id ⟨name, false⟩) ssh)]) := by
  simp [VPC.make, createFirewallRules, List.map_map]

/-- Characterisation of the constructor's class instance. -/
theorem make_fst (name region : String) (cfg : List SubnetConfig)
    (src : List String) (ssh : Option (List String)) :
    (VPC.make name region cfg src ssh).1 =
      ⟨⟨name, false⟩,
        cfg.map fun sc =>
          ⟨sc.name, sc.cidrRange, region, Network.id ⟨name, false⟩, true⟩⟩ := by
  simp [VPC.make]

/-- The networks the constructor declares: exactly the one stored in the
instance. -/
theorem networksOf_make (name region : String) (cfg : List SubnetConfig)
    (src : List String) (ssh : Option (List String)) :
    networksOf (VPC.make name region cfg src ssh).2 = [⟨name, false⟩] := by
  rw [make_snd, networksOf_cons_network, networksOf_append,
    networksOf_map_subnetwork]
  rfl

/-- The subnetworks the constructor declares: one per configuration entry,
in order. -/
theorem subnetworksOf_make (name region : String) (cfg : List SubnetConfig)
    (src : List String) (ssh : Option (List String)) :
    subnetworksOf (VPC.make name region cfg src ssh).2 =
      cfg.map fun sc =>
        ⟨sc.name, sc.cidrRange, region, Network.id ⟨name, false⟩, true⟩ := by
  rw [make_snd, subnetworksOf_cons_network, subnetworksOf_append,
    subnetworksOf_map_subnetwork]
  have h : subnetworksOf
      [Resource.firewall (allowInternalRule (Network.id ⟨name, false⟩) src),
       Resource.firewall (allowSshRule (Network.id ⟨name, false⟩) ssh)] = [] := rfl
  rw [h, List.append_nil]

/-- The firewalls the constructor declares: exactly the two rules, in order. -/
theorem firewallsOf_make (name region : String) (cfg : List SubnetConfig)
    (src : List String) (ssh : Option (List String)) :
    firewallsOf (VPC.make name region cfg src ssh).2 =
      [allowInternalRule (Network.id ⟨name, false⟩) src,
       allowSshRule (Network.id ⟨name, false⟩) ssh] := by
  rw [make_snd, firewallsOf_cons_network, firewallsOf_append,
    firewallsOf_map_subnetwork]
  rfl

/-! Port-specification evaluation lemmas. -/

theorem parsePortSpec_22 : parsePortSpec "22" = some (22, 22) := rfl

theorem parsePortSpec_all : parsePortSpec "0-65535" = some (0, 65535) := rfl

/-- C1: For every subnet-configuration list of length N passed to the VPC
constructor, exactly one Network and exactly N Subnetworks are created, and
every created Subnetwork and both created FirewallRules carry a reference to
the id of that one Network (the only network declared is the instance's own,
so no resource references any other network). -/
theorem vpc_topology_one_network (name region : String) (cfg : List SubnetConfig)
    (src : List String) (ssh : Option (List String)) :
    networksOf (VPC.make name region cfg src ssh).2 =
      [(VPC.make name region cfg src ssh).1.vpc] ∧
    (subnetworksOf (VPC.make name region cfg src ssh).2).length = cfg.length ∧
    (firewallsOf (VPC.make name region cfg src ssh).2).length = 2 ∧
    (∀ s ∈ subnetworksOf (VPC.make name region cfg src ssh).2,
      s.network = (VPC.make name region cfg src ssh).1.vpc.id) ∧
    (∀ f ∈ firewallsOf (VPC.make name region cfg src ssh).2,
      f.network = (VPC.make name region cfg src ssh).1.vpc.id) := by
  refine ⟨?_, ?_, ?_, ?_, ?_⟩
  · rw [networksOf_make, make_fst]
  · rw [subnetworksOf_make, List.length_map]
  · rw [firewallsOf_make]
    rfl
  · rw [subnetworksOf_make, make_fst]
    intro s hs
    simp only [List.mem_map] at hs
    obtain ⟨sc, _, rfl⟩ := hs
    rfl
  · rw [firewallsOf_make, make_fst]
    intro f hf
    simp only [List.mem_cons, List.mem_singleton] at hf
    rcases hf with rfl | rfl | h
    · rfl
    · rfl
    · exact absurd h (List.not_mem_nil f)

/-- C1 witness: at a concrete input, the single declared subnetwork indeed
references the declared network's id. -/
theorem vpc_topology_one_network_witness :
    (⟨"s1", "10.0.0.0/16", "r", "networks/vpc", true⟩ : Subnetwork).network =
      (VPC.make "vpc" "r" [⟨"10.0.0.0/16", "s1"⟩] ["10.0.0.0/8"] none).1.vpc.id :=
  (vpc_topology_one_network "vpc" "r" [⟨"10.0.0.0/16", "s1"⟩]
    ["10.0.0.0/8"] none).2.2.2.1 _ (by decide)

/-- C2: For every input to the VPC constructor (any name, region, subnet
list including the empty list, and source-range lists), exactly two firewall
resources are created, named allow-internal and allow-ssh, and no others. -/
theorem vpc_exactly_two_firewalls (name region : String) (cfg : List SubnetConfig)
    (src : List String) (ssh : Option (List String)) :
    (firewallsOf (VPC.make name region cfg src ssh).2).map Firewall.resourceName =
      ["allow-internal", "allow-ssh"] := by
  rw [firewallsOf_make]
  rfl

/-- C3: For every pair of argument lists (sourceRanges, sshSourceRanges)
given to the VPC constructor, the allow-ssh rule's source ranges equal
exactly the sshSourceRanges argument (and do not depend on the general
sourceRanges argument), and its allowed traffic is exactly protocol tcp on
port 22, direction ingress, with full metadata logging. -/
theorem allow_ssh_rule_spec (name region : String) (cfg : List SubnetConfig)
    (src ssh : List String) :
    allowSshOf (VPC.make name region cfg src (some ssh)).2 =
      some (allowSshRule (Network.id ⟨name, false⟩) (some ssh)) ∧
    (allowSshRule (Network.id ⟨name, false⟩) (some ssh)).sourceRanges = some ssh ∧
    (∀ src' : List String,
      allowSshOf (VPC.make name region cfg src' (some ssh)).2 =
        allowSshOf (VPC.make name region cfg src (some ssh)).2) ∧
    (∀ proto p,
      (allowSshRule (Network.id ⟨name, false⟩) (some ssh)).covers proto p = true ↔
        proto = "tcp" ∧ p = 22) ∧
    (allowSshRule (Network.id ⟨name, false⟩) (some ssh)).direction = "INGRESS" ∧
    (allowSshRule (Network.id ⟨name, false⟩) (some ssh)).logConfig.metadata =
      "INCLUDE_ALL_METADATA" := by
  refine ⟨?_, rfl, ?_, ?_, rfl, rfl⟩
  · rw [allowSshOf, firewallsOf_make]
    rfl
  · intro src'
    rw [allowSshOf, firewallsOf_make, allowSshOf, firewallsOf_make]
    rfl
  · intro proto p
    simp only [Firewall.covers, allowSshRule, FirewallAllow.covers,
      List.any_cons, List.any_nil, parsePortSpec_22, Bool.or_false,
      Bool.and_eq_true, beq_iff_eq, decide_eq_true_eq]
    constructor
    · rintro ⟨h1, h2, h3⟩
      exact ⟨h1.symm, Nat.le_antisymm h3 h2⟩
    · rintro ⟨rfl, rfl⟩
      exact ⟨rfl, Nat.le_refl _, Nat.le_refl _⟩

/-- C3 witness: at a concrete input, the allow-ssh rule's source ranges are
the sshSourceRanges argument and the rule covers tcp port 22. -/
theorem allow_ssh_rule_spec_witness :
    (allowSshRule (Network.id ⟨"vpc", false⟩) (some ["1.2.3.4/32"])).covers "tcp" 22 =
      true :=
  ((allow_ssh_rule_spec "vpc" "r" [] ["10.0.0.0/8"]
    ["1.2.3.4/32"]).2.2.2.1 "tcp" 22).mpr ⟨rfl, rfl⟩

/-- C4 counterexample: at the all-unset environment, the allow-ssh firewall
declared by the entry configuration exists and carries undefined source
ranges (`none`), not the general sourceRangesIndiaVPC value, so the claim
that the call site passes sourceRangesIndiaVPC as the SSH rule's source
ranges is false. -/
theorem ssh_gets_undefined_not_general_ranges :
    (allowSshOf (indiaVPC ⟨none, none, none, none⟩).2).map Firewall.sourceRanges =
      some none ∧
    (allowSshOf (indiaVPC ⟨none, none, none, none⟩).2).map Firewall.sourceRanges ≠
      some (some (sourceRangesIndiaVPC ⟨none, none, none, none⟩)) := by
  constructor
  · rfl
  · decide

/-- C4 (amended): the entry configuration invokes the constructor with 4
positional arguments while the signature declares 5, so the fifth parameter
sshSourceRanges is undefined; for every environment the allow-ssh rule is
declared with undefined (`none`) source ranges while the allow-internal rule
receives sourceRangesIndiaVPC, and the VPC_SSH_SOURCE_RANGE secret is never
wired into the program (no environment value reaches the SSH rule). -/
theorem ssh_secret_never_wired (env : Env) :
    (allowSshOf (indiaVPC env).2).map Firewall.sourceRanges = some none ∧
    (allowInternalOf (indiaVPC env).2).map Firewall.sourceRanges =
      some (some (sourceRangesIndiaVPC env)) := by
  constructor
  · rw [indiaVPC, allowSshOf, firewallsOf_make]
    rfl
  · rw [indiaVPC, allowInternalOf, firewallsOf_make]
    rfl

/-- C5: For every VPC construction, the allow-internal rule permits exactly
tcp on ports 0-65535, udp on ports 0-65535, and icmp on any port; its source
ranges equal the general sourceRanges argument; direction ingress with full
metadata logging; target tag "internal"; and that tag is never applied to
any resource the constructor declares. -/
theorem allow_internal_rule_spec (name region : String) (cfg : List SubnetConfig)
    (src : List String) (ssh : Option (List String)) :
    allowInternalOf (VPC.make name region cfg src ssh).2 =
      some (allowInternalRule (Network.id ⟨name, false⟩) src) ∧
    (∀ proto p,
      (allowInternalRule (Network.id ⟨name, false⟩) src).covers proto p = true ↔
        ((proto = "tcp" ∧ p ≤ 65535) ∨ (proto = "udp" ∧ p ≤ 65535) ∨
          proto = "icmp")) ∧
    (allowInternalRule (Network.id ⟨name, false⟩) src).sourceRanges = some src ∧
    (allowInternalRule (Network.id ⟨name, false⟩) src).direction = "INGRESS" ∧
    (allowInternalRule (Network.id ⟨name, false⟩) src).logConfig.metadata =
      "INCLUDE_ALL_METADATA" ∧
    (allowInternalRule (Network.id ⟨name, false⟩) src).targetTags =
      some ["internal"] ∧
    (∀ r ∈ (VPC.make name region cfg src ssh).2, "internal" ∉ r.appliedTags) := by
  refine ⟨?_, ?_, rfl, rfl, rfl, rfl, ?_⟩
  · rw [allowInternalOf, firewallsOf_make]
    rfl
  · intro proto p
    simp only [Firewall.covers, allowInternalRule, FirewallAllow.covers,
      List.any_cons, List.any_nil, parsePortSpec_all, Bool.or_false,
      Bool.or_eq_true, Bool.and_eq_true, beq_iff_eq, decide_eq_true_eq]
    constructor
    · rintro (⟨h1, _, h3⟩ | ⟨h1, _, h3⟩ | ⟨h1, _⟩)
      · exact Or.inl ⟨h1.symm, h3⟩
      · exact Or.inr (Or.inl ⟨h1.symm, h3⟩)
      · exact Or.inr (Or.inr h1.symm)
    · rintro (⟨rfl, hp⟩ | ⟨rfl, hp⟩ | rfl)
      · exact Or.inl ⟨rfl, Nat.zero_le _, hp⟩
      · exact Or.inr (Or.inl ⟨rfl, Nat.zero_le _, hp⟩)
      · exact Or.inr (Or.inr ⟨rfl, trivial⟩)
  · intro r _
    cases r <;> simp [Resource.appliedTags]

/-- C5 witness: at a concrete input, the allow-internal rule covers udp
port 443 and the "internal" tag is not applied to the declared network. -/
theorem allow_internal_rule_spec_witness :
    (allowInternalRule (Network.id ⟨"vpc", false⟩) ["10.0.0.0/8"]).covers "udp" 443 =
      true ∧
    "internal" ∉ (Resource.network ⟨"vpc", false⟩).appliedTags :=
  ⟨((allow_internal_rule_spec "vpc" "r" [] ["10.0.0.0/8"] none).2.1 "udp" 443).mpr
      (Or.inr (Or.inl ⟨rfl, by decide⟩)),
    (allow_internal_rule_spec "vpc" "r" [] ["10.0.0.0/8"] none).2.2.2.2.2.2
      (Resource.network ⟨"vpc", false⟩) (by decide)⟩

/-- C6: getVPCDetails returns the network's name and id plus one
{subnetName, subnetId} entry per created subnet, and the number and order of
these entries equal the number and order of the input subnet-configuration
list (it is a pure function of the instance, so it is side-effect free and
idempotent). -/
theorem getVPCDetails_spec (name region : String) (cfg : List SubnetConfig)
    (src : List String) (ssh : Option (List String)) :
    ((VPC.make name region cfg src ssh).1.getVPCDetails).vpcName =
      (VPC.make name region cfg src ssh).1.vpc.outName ∧
    ((VPC.make name region cfg src ssh).1.getVPCDetails).vpcId =
      (VPC.make name region cfg src ssh).1.vpc.id ∧
    ((VPC.make name region cfg src ssh).1.getVPCDetails).subnets.length =
      cfg.length ∧
    ((VPC.make name region cfg src ssh).1.getVPCDetails).subnets.map
        SubnetDetail.subnetName = cfg.map SubnetConfig.name ∧
    ((VPC.make name region cfg src ssh).1.getVPCDetails).subnets =
      (VPC.make name region cfg src ssh).1.subnets.map fun s => ⟨s.outName, s.id⟩ := by
  refine ⟨rfl, rfl, ?_, ?_, rfl⟩
  · rw [make_fst]
    simp [VPC.getVPCDetails]
  · rw [make_fst]
    simp [VPC.getVPCDetails, List.map_map, Subnetwork.outName]

/-- C7 counterexample: setting VPC_SOURCE_RANGE to the empty string is a
set variable whose value is nevertheless not used: the default applies,
because JavaScript `||` treats the empty string as falsy. -/
theorem env_empty_string_falls_back :
    (⟨none, none, some "", none⟩ : Env).VPC_SOURCE_RANGE = some "" ∧
    sourceRangesIndiaVPC ⟨none, none, some "", none⟩ = ["10.0.0.0/8"] ∧
    sourceRangesIndiaVPC ⟨none, none, some "", none⟩ ≠ [""] := by
  refine ⟨rfl, rfl, ?_⟩
  decide

/-- C7 (amended): when an environment variable is unset the defaults apply
(region us-central1, first CIDR 10.0.0.0/16, second CIDR 10.1.0.0/16,
source range 10.0.0.0/8); when a variable is set to a non-empty string its
value is used; a variable set to the empty string also falls back to the
default (JavaScript `||` treats it as falsy). -/
theorem env_defaults_spec (env : Env) :
    (env.VPC_SOURCE_RANGE = none → sourceRangesIndiaVPC env = ["10.0.0.0/8"]) ∧
    (env.VPC_SOURCE_RANGE = some "" → sourceRangesIndiaVPC env = ["10.0.0.0/8"]) ∧
    (∀ s : String, s ≠ "" → env.VPC_SOURCE_RANGE = some s →
      sourceRangesIndiaVPC env = [s]) ∧
    (env.VPC_CIDR_RANGE_1 = none →
      ((subnetsConfigIndiaVPC env).map SubnetConfig.cidrRange).head? =
        some "10.0.0.0/16") ∧
    (∀ s : String, s ≠ "" → env.VPC_CIDR_RANGE_1 = some s →
      ((subnetsConfigIndiaVPC env).map SubnetConfig.cidrRange).head? = some s) ∧
    (env.VPC_CIDR_RANGE_2 = none →
      ((subnetsConfigIndiaVPC env).map SubnetConfig.cidrRange).getLast? =
        some "10.1.0.0/16") ∧
    (∀ s : String, s ≠ "" → env.VPC_CIDR_RANGE_2 = some s →
      ((subnetsConfigIndiaVPC env).map SubnetConfig.cidrRange).getLast? = some s) ∧
    (env.GCP_REGION = none →
      ∀ s ∈ (indiaVPC env).1.subnets, s.region = "us-central1") ∧
    (∀ r : String, r ≠ "" → env.GCP_REGION = some r →
      ∀ s ∈ (indiaVPC env).1.subnets, s.region = r) := by
  refine ⟨?_, ?_, ?_, ?_, ?_, ?_, ?_, ?_, ?_⟩
  · intro h
    simp [sourceRangesIndiaVPC, jsOr, h]
  · intro h
    simp [sourceRangesIndiaVPC, jsOr, h]
  · intro s hs h
    simp [sourceRangesIndiaVPC, jsOr, h, hs]
  · intro h
    simp [subnetsConfigIndiaVPC, jsOr, h]
  · intro s hs h
    simp [subnetsConfigIndiaVPC, jsOr, h, hs]
  · intro h
    simp [subnetsConfigIndiaVPC, jsOr, h]
  · intro s hs h
    simp [subnetsConfigIndiaVPC, jsOr, h, hs]
  · intro h s hs
    rw [indiaVPC, make_fst] at hs
    simp only [List.mem_map] at hs
    obtain ⟨sc, _, rfl⟩ := hs
    simp [jsOr, h]
  · intro r hr h s hs
    rw [indiaVPC, make_fst] at hs
    simp only [List.mem_map] at hs
    obtain ⟨sc, _, rfl⟩ := hs
    simp [jsOr, h, hr]

/-- C7 witness: with VPC_SOURCE_RANGE set to a non-empty string and
GCP_REGION set to the empty string, the non-empty value is used and the
empty one falls back to the default. -/
theorem env_defaults_spec_witness :
    sourceRangesIndiaVPC ⟨none, none, some "192.168.0.0/16", some ""⟩ =
      ["192.168.0.0/16"] :=
  (env_defaults_spec ⟨none, none, some "192.168.0.0/16", some ""⟩).2.2.1
    "192.168.0.0/16" (by decide) rfl

/-- C8: The VPC constructor performs no local validation and never rejects
any input on its own: it is a total function that passes name, region, CIDR
strings and source ranges through to the declared resources unchanged, and
the empty subnet-configuration list yields a network with zero subnets. -/
theorem constructor_no_validation (name region : String) (cfg : List SubnetConfig)
    (src : List String) (ssh : Option (List String)) :
    ((VPC.make name region cfg src ssh).1.subnets.map Subnetwork.ipCidrRange =
      cfg.map SubnetConfig.cidrRange) ∧
    ((VPC.make name region cfg src ssh).1.subnets.map Subnetwork.resourceName =
      cfg.map SubnetConfig.name) ∧
    (∀ s ∈ (VPC.make name region cfg src ssh).1.subnets, s.region = region) ∧
    (firewallsOf (VPC.make name region cfg src ssh).2 =
      [allowInternalRule (Network.id ⟨name, false⟩) src,
       allowSshRule (Network.id ⟨name, false⟩) ssh]) ∧
    ((VPC.make name region [] src ssh).1.subnets = []) ∧
    (networksOf (VPC.make name region [] src ssh).2 = [⟨name, false⟩]) := by
  refine ⟨?_, ?_, ?_, firewallsOf_make name region cfg src ssh, ?_,
    networksOf_make name region [] src ssh⟩
  · rw [make_fst]
    simp [List.map_map]
  · rw [make_fst]
    simp [List.map_map]
  · intro s hs
    rw [make_fst] at hs
    simp only [List.mem_map] at hs
    obtain ⟨sc, _, rfl⟩ := hs
    rfl
  · rw [make_fst]
    rfl

/-- C8 witness: a malformed CIDR string is passed through unchanged, with
the region intact. -/
theorem constructor_no_validation_witness :
    (⟨"bogus", "not-a-cidr", "r", "networks/vpc", true⟩ : Subnetwork).region = "r" :=
  (constructor_no_validation "vpc" "r" [⟨"not-a-cidr", "bogus"⟩] [] none).2.2.1 _
    (by decide)

/-- C9: For every entry of the input subnet-configuration list, the
corresponding created Subnetwork has that entry's name and CIDR range, the
constructor's region, private Google access always enabled, and a reference
to the owning network, whose auto-subnet-creation is disabled. -/
theorem subnet_fields_spec (name region : String) (cfg : List SubnetConfig)
    (src : List String) (ssh : Option (List String)) (i : Nat) (c : SubnetConfig)
    (h : cfg[i]? = some c) :
    (VPC.make name region cfg src ssh).1.subnets[i]? =
      some ⟨c.name, c.cidrRange, region, Network.id ⟨name, false⟩, true⟩ ∧
    (VPC.make name region cfg src ssh).1.vpc.autoCreateSubnetworks = false := by
  constructor
  · rw [make_fst]
    simp [List.getElem?_map, h]
  · rw [make_fst]

/-- C9 witness: at a concrete input, the first created subnetwork carries
the first configuration entry's name and CIDR. -/
theorem subnet_fields_spec_witness :
    (VPC.make "vpc" "r" [⟨"10.0.0.0/16", "s1"⟩] [] none).1.subnets[0]? =
      some ⟨"s1", "10.0.0.0/16", "r", "networks/vpc", true⟩ :=
  (subnet_fields_spec "vpc" "r" [⟨"10.0.0.0/16", "s1"⟩] [] none 0
    ⟨"10.0.0.0/16", "s1"⟩ (by decide)).1

/-- C10: The names of all resources declared by the entry configuration are
independent of the environment: they are always india-vpc, vpc-subnet-1,
vpc-subnet-2, allow-internal, allow-ssh; and the whole declared program is
determined by the four resolved environment values (the environment
influences nothing else). -/
theorem resource_names_env_independent (env env' : Env) :
    ((indiaVPC env).2).map Resource.resourceName =
      ["india-vpc", "vpc-subnet-1", "vpc-subnet-2", "allow-internal",
        "allow-ssh"] ∧
    (jsOr env.VPC_CIDR_RANGE_1 "10.0.0.0/16" =
        jsOr env'.VPC_CIDR_RANGE_1 "10.0.0.0/16" →
      jsOr env.VPC_CIDR_RANGE_2 "10.1.0.0/16" =
        jsOr env'.VPC_CIDR_RANGE_2 "10.1.0.0/16" →
      jsOr env.VPC_SOURCE_RANGE "10.0.0.0/8" =
        jsOr env'.VPC_SOURCE_RANGE "10.0.0.0/8" →
      jsOr env.GCP_REGION "us-central1" = jsOr env'.GCP_REGION "us-central1" →
      indiaVPC env = indiaVPC env') := by
  constructor
  · rw [indiaVPC, make_snd]
    rfl
  · intro h1 h2 h3 h4
    rw [indiaVPC, indiaVPC, subnetsConfigIndiaVPC, subnetsConfigIndiaVPC,
      sourceRangesIndiaVPC, sourceRangesIndiaVPC, h1, h2, h3, h4]

/-- C10 witness: the all-unset environment and the all-empty-string
environment resolve to the same values and declare the identical program. -/
theorem resource_names_env_independent_witness :
    indiaVPC ⟨none, none, none, none⟩ = indiaVPC ⟨some "", some "", some "", some ""⟩ :=
  (resource_names_env_independent ⟨none, none, none, none⟩
    ⟨some "", some "", some "", some ""⟩).2 (by decide) (by decide) (by decide)
    (by decide)
